import Mathlib

/-!
Shallow embedding of `src/fetcher/lambda_function.py` from the
`github-repo-fetcher` repository.

The core function `get_public_repositories(username)` builds the URL
`https://api.github.com/users/{username}/repos`, performs a single
`requests.get(url)`, and on a 200 status evaluates the comprehension
`[repo["name"] for repo in response.json()]`; on any other status it
returns `[]`.

The embedding models decoded JSON values, Python's iteration and
subscription semantics (which decide what the comprehension does on
non-array bodies), and the HTTP client as a function from URL to an
outcome.  `get_public_repositories` returns the result of the call
together with the list of URLs requested, so that claims about the
number and shape of outbound requests can be stated.
-/

namespace RepoFetcher

/-- A decoded JSON value, as produced by Python's `json` module from a
response body.  Numbers are modelled as integers; no claim depends on
numeric semantics. -/
inductive Json : Type where
  | null : Json
  | bool (b : Bool) : Json
  | num (n : Int) : Json
  | str (s : String) : Json
  | arr (elems : List Json) : Json
  | obj (fields : List (String × Json)) : Json

/-- Python exceptions that the embedded code can raise. -/
inductive PyError : Type where
  | typeError : PyError
  | keyError (key : String) : PyError
  | jsonDecodeError : PyError
  | connectionError : PyError
deriving DecidableEq, Repr

/-- First-match association lookup, as Python dict subscription on the
field list of a decoded JSON object. -/
def lookupField (fields : List (String × Json)) (key : String) : Option Json :=
  match fields with
  | [] => none
  | (k, v) :: rest => if k = key then some v else lookupField rest key

/-- Python `repo["name"]`: on a dict, key lookup (KeyError when the key
is absent); on any other value, subscription with a string key raises
TypeError. -/
def getItemName (repo : Json) : Except PyError Json :=
  match repo with
  | .obj fields =>
      match lookupField fields "name" with
      | some v => .ok v
      | none => .error (.keyError "name")
  | _ => .error .typeError

/-- Python iteration over a decoded JSON value: a list yields its
elements, a dict yields its keys (as strings, in insertion order), a
string yields its one-character substrings, and every other value
raises TypeError. -/
def pyIter (v : Json) : Except PyError (List Json) :=
  match v with
  | .arr elems => .ok elems
  | .obj fields => .ok (fields.map (fun kv => Json.str kv.1))
  | .str s => .ok (s.data.map (fun c => Json.str (String.mk [c])))
  | _ => .error .typeError

/-- The body of the comprehension `[repo["name"] for repo in items]`:
left-to-right evaluation, stopping at the first raised exception. -/
def projectNames (items : List Json) : Except PyError (List Json) :=
  match items with
  | [] => .ok []
  | repo :: rest =>
      match getItemName repo with
      | .error e => .error e
      | .ok n =>
          match projectNames rest with
          | .error e => .error e
          | .ok ns => .ok (n :: ns)

/-- `[repo["name"] for repo in repos]` where `repos` is the decoded
JSON value returned by `response.json()`. -/
def nameComprehension (repos : Json) : Except PyError (List Json) :=
  match pyIter repos with
  | .error e => .error e
  | .ok items => projectNames items

/-- An HTTP response as seen by the code: `status_code`, `reason`, and
the outcome of calling `.json()` on the body (an error models a body
that is not valid JSON). -/
structure HttpResponse where
  status_code : Nat
  reason : Option String
  body : Except PyError Json

/-- Outcome of `requests.get`: either a response object, or a raised
exception (network-level failure). -/
inductive HttpOutcome : Type where
  | response (r : HttpResponse) : HttpOutcome
  | failure (e : PyError) : HttpOutcome

/-- `url = f"https://api.github.com/users/(username)/repos"`: plain
string interpolation, no escaping. -/
def repoUrl (username : String) : String :=
  "https://api.github.com/users/" ++ username ++ "/repos"

/-- `get_public_repositories(username)` from
`src/fetcher/lambda_function.py`, parameterised by the HTTP client.
The first component is the value returned (or the exception raised, as
`Except.error`); the second is the list of URLs requested during the
call. -/
def get_public_repositories (client : String → HttpOutcome) (username : String) :
    Except PyError (List Json) × List String :=
  (match client (repoUrl username) with
   | .failure e => .error e
   | .response r =>
       if r.status_code = 200 then
         match r.body with
         | .error e => .error e
         | .ok repos => nameComprehension repos
       else
         .ok [],
   [repoUrl username])

/-- An array element on which `repo["name"]` raises: either not a dict
at all, or a dict with no `name` key. -/
def lacksName (x : Json) : Prop :=
  (∀ fields, x ≠ Json.obj fields) ∨
  (∃ fields, x = Json.obj fields ∧ lookupField fields "name" = none)

/-- Relation between an array element and the name it carries: the
element is a dict whose `name` key holds that value. -/
def hasName (o v : Json) : Prop :=
  ∃ fields, o = Json.obj fields ∧ lookupField fields "name" = some v

lemma projectNames_ok_of_forall₂ (objs names : List Json)
    (h : List.Forall₂ hasName objs names) :
    projectNames objs = .ok names := by
  induction h with
  | nil => rfl
  | cons hd _ ih =>
      obtain ⟨fields, rfl, hf⟩ := hd
      simp [projectNames, getItemName, hf, ih]

lemma getItemName_error_of_lacksName (x : Json) (h : lacksName x) :
    ∃ e, getItemName x = .error e := by
  rcases h with hno | ⟨fields, rfl, hnone⟩
  · cases x with
    | obj fields => exact absurd rfl (hno fields)
    | null => exact ⟨.typeError, rfl⟩
    | bool b => exact ⟨.typeError, rfl⟩
    | num n => exact ⟨.typeError, rfl⟩
    | str s => exact ⟨.typeError, rfl⟩
    | arr elems => exact ⟨.typeError, rfl⟩
  · exact ⟨.keyError "name", by simp [getItemName, hnone]⟩

lemma projectNames_error_of_mem (xs : List Json) (x : Json)
    (hmem : x ∈ xs) (hbad : lacksName x) :
    ∃ e, projectNames xs = .error e := by
  induction xs with
  | nil => cases hmem
  | cons y ys ih =>
      rcases List.mem_cons.mp hmem with rfl | hmem₂
      · obtain ⟨e, he⟩ := getItemName_error_of_lacksName x hbad
        exact ⟨e, by simp [projectNames, he]⟩
      · cases hg : getItemName y with
        | error e => exact ⟨e, by simp [projectNames, hg]⟩
        | ok n =>
            obtain ⟨e, he⟩ := ih hmem₂
            exact ⟨e, by simp [projectNames, hg, he]⟩

lemma projectNames_congr (objs₁ objs₂ : List Json)
    (h : List.Forall₂ (fun a b => ∃ fa fb, a = Json.obj fa ∧ b = Json.obj fb ∧
        lookupField fa "name" = lookupField fb "name") objs₁ objs₂) :
    projectNames objs₁ = projectNames objs₂ := by
  induction h with
  | nil => rfl
  | cons hd _ ih =>
      obtain ⟨fa, fb, rfl, rfl, heq⟩ := hd
      simp only [projectNames, getItemName, heq, ih]

lemma result_of_response (r : HttpResponse) (u : String) :
    (get_public_repositories (fun _ => .response r) u).1 =
      if r.status_code = 200 then
        match r.body with
        | .error e => .error e
        | .ok repos => nameComprehension repos
      else .ok [] := rfl

/-- C1: for every 200 response whose JSON body is an array of N objects
each having a `name` field, `get_public_repositories` returns the list
of those N name values in the order they appear in the array; for N = 0
it returns the empty list. -/
theorem c1_success_projects_names (u : String) (r : HttpResponse)
    (objs names : List Json)
    (hstat : r.status_code = 200) (hbody : r.body = .ok (Json.arr objs))
    (hnames : List.Forall₂ hasName objs names) :
    (get_public_repositories (fun _ => .response r) u).1 = .ok names := by
  simp [result_of_response, hstat, hbody, nameComprehension, pyIter,
    projectNames_ok_of_forall₂ objs names hnames]

/-- Witness for C1: the three-repository scenario from the repository's
own test suite. -/
theorem c1_witness :
    (get_public_repositories
      (fun _ => .response ⟨200, none, .ok (Json.arr
        [Json.obj [("name", Json.str "repo1")],
         Json.obj [("name", Json.str "repo2")],
         Json.obj [("name", Json.str "repo3")]])⟩)
      "testuser").1 = .ok [Json.str "repo1", Json.str "repo2", Json.str "repo3"] :=
  c1_success_projects_names "testuser" _ _ _ rfl rfl
    (.cons ⟨[("name", Json.str "repo1")], rfl, rfl⟩
      (.cons ⟨[("name", Json.str "repo2")], rfl, rfl⟩
        (.cons ⟨[("name", Json.str "repo3")], rfl, rfl⟩ .nil)))

/-- C2: for every response whose status code is not exactly 200,
`get_public_repositories` returns the empty list and raises no
exception, regardless of the response body (the body is never
decoded on this path, so even an undecodable body is irrelevant). -/
theorem c2_non200_returns_empty (u : String) (r : HttpResponse)
    (hstat : r.status_code ≠ 200) :
    (get_public_repositories (fun _ => .response r) u).1 = .ok [] := by
  simp [result_of_response, hstat]

/-- Witness for C2: a 404 whose body is not even valid JSON still
yields the empty list. -/
theorem c2_witness :
    (get_public_repositories
      (fun _ => .response ⟨404, some "Not Found", .error .jsonDecodeError⟩)
      "nonexistentuser").1 = .ok [] :=
  c2_non200_returns_empty "nonexistentuser" _ (by decide)

/-- Counterexample to C3 as stated: a 200 response whose body decodes
to the empty JSON object, which is not an array of objects with a
`name` field, makes `get_public_repositories` return the empty list
rather than raise: the comprehension iterates the empty dict and never
fails. -/
theorem c3_counterexample :
    (get_public_repositories
      (fun _ => .response ⟨200, none, .ok (Json.obj [])⟩) "someuser").1 = .ok [] := rfl

/-- C3 (amended): for every 200 response whose body is malformed JSON,
decodes to a non-iterable value (null, boolean, or number), decodes to
a non-empty object or non-empty string, or decodes to an array with an
element lacking a `name` field, `get_public_repositories` raises an
error to its caller; only the empty non-array iterables (empty object,
empty string) slip through and return the empty list. -/
theorem c3_amended_fatal_on_bad_body (u : String) (r : HttpResponse)
    (hstat : r.status_code = 200)
    (hbad :
      (∃ e, r.body = .error e) ∨
      r.body = .ok Json.null ∨
      (∃ b, r.body = .ok (Json.bool b)) ∨
      (∃ n, r.body = .ok (Json.num n)) ∨
      (∃ k v fs, r.body = .ok (Json.obj ((k, v) :: fs))) ∨
      (∃ s, r.body = .ok (Json.str s) ∧ s ≠ "") ∨
      (∃ xs x, r.body = .ok (Json.arr xs) ∧ x ∈ xs ∧ lacksName x)) :
    ∃ e, (get_public_repositories (fun _ => .response r) u).1 = .error e := by
  rcases hbad with ⟨e, hb⟩ | hb | ⟨b, hb⟩ | ⟨n, hb⟩ | ⟨k, v, fs, hb⟩ |
    ⟨s, hb, hs⟩ | ⟨xs, x, hb, hmem, hlacks⟩
  · exact ⟨e, by simp [result_of_response, hstat, hb]⟩
  · exact ⟨.typeError, by simp [result_of_response, hstat, hb, nameComprehension, pyIter]⟩
  · exact ⟨.typeError, by simp [result_of_response, hstat, hb, nameComprehension, pyIter]⟩
  · exact ⟨.typeError, by simp [result_of_response, hstat, hb, nameComprehension, pyIter]⟩
  · exact ⟨.typeError, by
      simp [result_of_response, hstat, hb, nameComprehension, pyIter,
        projectNames, getItemName]⟩
  · obtain ⟨c, cs, hdata⟩ : ∃ c cs, s.data = c :: cs := by
      cases hd : s.data with
      | nil => exact absurd (String.ext (hd.trans rfl)) hs
      | cons c cs => exact ⟨c, cs, rfl⟩
    exact ⟨.typeError, by
      simp [result_of_response, hstat, hb, nameComprehension, pyIter, hdata,
        projectNames, getItemName]⟩
  · obtain ⟨e, he⟩ := projectNames_error_of_mem xs x hmem hlacks
    exact ⟨e, by simp [result_of_response, hstat, hb, nameComprehension, pyIter, he]⟩

/-- Witness for C3 (amended): a 200 response whose body decodes to a
bare JSON null raises a TypeError. -/
theorem c3_witness :
    ∃ e, (get_public_repositories
      (fun _ => .response ⟨200, none, .ok Json.null⟩) "someuser").1 = .error e :=
  c3_amended_fatal_on_bad_body "someuser" _ rfl (Or.inr (Or.inl rfl))

/-- C4: a network-level failure of the single GET (the client raises
instead of returning a response) is not caught: it propagates to the
caller unchanged and is never converted to an empty list. -/
theorem c4_transport_failure_propagates (u : String) (e : PyError) :
    (get_public_repositories (fun _ => .failure e) u).1 = .error e := rfl

/-- C5: for every username, the request URL is exactly the
concatenation of the fixed prefix, the raw username, and the fixed
suffix, with no encoding or other transformation. -/
theorem c5_request_url_is_concatenation (client : String → HttpOutcome) (u : String) :
    (get_public_repositories client u).2
      = ["https://api.github.com/users/" ++ u ++ "/repos"] := rfl

/-- C6: every invocation performs exactly one outbound GET, whatever
the client does (response of any status, undecodable body, or raised
exception): the request trace always has length one. -/
theorem c6_exactly_one_request (client : String → HttpOutcome) (u : String) :
    (get_public_repositories client u).2.length = 1 := rfl

/-- C7: determinism across runs: two invocations with the same
username against clients that agree on the requested URL (same status
and body for that URL) produce identical results and traces. -/
theorem c7_deterministic (c₁ c₂ : String → HttpOutcome) (u : String)
    (h : c₁ (repoUrl u) = c₂ (repoUrl u)) :
    get_public_repositories c₁ u = get_public_repositories c₂ u := by
  unfold get_public_repositories
  rw [h]

/-- Witness for C7: a client that answers every URL and a client that
only answers the request URL (failing elsewhere) give identical
results for the same username. -/
theorem c7_witness :
    get_public_repositories
        (fun _ => .response ⟨200, none, .ok (Json.arr [Json.obj [("name", Json.str "r")]])⟩)
        "testuser"
      = get_public_repositories
        (fun s => if s = repoUrl "testuser"
          then .response ⟨200, none, .ok (Json.arr [Json.obj [("name", Json.str "r")]])⟩
          else .failure .connectionError)
        "testuser" :=
  c7_deterministic _ _ "testuser" (if_pos rfl).symm

/-- C8: on a 200 response the result depends only on the sequence of
`name` values: two arrays agreeing elementwise on `name` give equal
outputs (other fields are ignored), and when the names are known the
output is exactly that name sequence, duplicates and all. -/
theorem c8_depends_only_on_names (u : String) (r₁ r₂ : HttpResponse)
    (objs₁ objs₂ : List Json)
    (h₁ : r₁.status_code = 200) (h₂ : r₂.status_code = 200)
    (hb₁ : r₁.body = .ok (Json.arr objs₁)) (hb₂ : r₂.body = .ok (Json.arr objs₂))
    (hagree : List.Forall₂ (fun a b => ∃ fa fb, a = Json.obj fa ∧ b = Json.obj fb ∧
        lookupField fa "name" = lookupField fb "name") objs₁ objs₂) :
    (get_public_repositories (fun _ => .response r₁) u).1
        = (get_public_repositories (fun _ => .response r₂) u).1
      ∧ ∀ names, List.Forall₂ hasName objs₁ names →
          (get_public_repositories (fun _ => .response r₁) u).1 = .ok names := by
  constructor
  · simp [result_of_response, h₁, h₂, hb₁, hb₂, nameComprehension, pyIter,
      projectNames_congr objs₁ objs₂ hagree]
  · intro names hnames
    simp [result_of_response, h₁, hb₁, nameComprehension, pyIter,
      projectNames_ok_of_forall₂ objs₁ names hnames]

/-- Witness for C8: two upstream arrays with different extra fields but
the same duplicated name sequence give equal outputs, and the duplicate
name appears twice in the output. -/
theorem c8_witness :
    (get_public_repositories (fun _ => .response ⟨200, none, .ok (Json.arr
        [Json.obj [("name", Json.str "a"), ("stars", Json.num 1)],
         Json.obj [("name", Json.str "a")]])⟩) "u").1
      = (get_public_repositories (fun _ => .response ⟨200, none, .ok (Json.arr
        [Json.obj [("name", Json.str "a")],
         Json.obj [("name", Json.str "a"), ("forks", Json.num 2)]])⟩) "u").1
  ∧ (get_public_repositories (fun _ => .response ⟨200, none, .ok (Json.arr
        [Json.obj [("name", Json.str "a"), ("stars", Json.num 1)],
         Json.obj [("name", Json.str "a")]])⟩) "u").1
      = .ok [Json.str "a", Json.str "a"] := by
  have h := c8_depends_only_on_names "u"
    ⟨200, none, .ok (Json.arr
      [Json.obj [("name", Json.str "a"), ("stars", Json.num 1)],
       Json.obj [("name", Json.str "a")]])⟩
    ⟨200, none, .ok (Json.arr
      [Json.obj [("name", Json.str "a")],
       Json.obj [("name", Json.str "a"), ("forks", Json.num 2)]])⟩
    [Json.obj [("name", Json.str "a"), ("stars", Json.num 1)],
     Json.obj [("name", Json.str "a")]]
    [Json.obj [("name", Json.str "a")],
     Json.obj [("name", Json.str "a"), ("forks", Json.num 2)]]
    rfl rfl rfl rfl
    (.cons ⟨[("name", Json.str "a"), ("stars", Json.num 1)],
        [("name", Json.str "a")], rfl, rfl, rfl⟩
      (.cons ⟨[("name", Json.str "a")],
          [("name", Json.str "a"), ("forks", Json.num 2)], rfl, rfl, rfl⟩ .nil))
  exact ⟨h.1, h.2 [Json.str "a", Json.str "a"]
    (.cons ⟨[("name", Json.str "a"), ("stars", Json.num 1)], rfl, rfl⟩
      (.cons ⟨[("name", Json.str "a")], rfl, rfl⟩ .nil))⟩

/-- C9: a 200 response decoding to an empty JSON object (or the other
empty non-array iterable, an empty string) returns the empty list
without raising: the comprehension iterates the decoded value directly
and never checks that it is an array. -/
theorem c9_empty_object_returns_empty (u : String) :
    (get_public_repositories (fun _ => .response ⟨200, none, .ok (Json.obj [])⟩) u).1
        = .ok []
      ∧ (get_public_repositories (fun _ => .response ⟨200, none, .ok (Json.str "")⟩) u).1
        = .ok [] :=
  ⟨rfl, rfl⟩

/-- C10: `name` values are not validated to be strings: an element
whose `name` field holds any JSON value at all contributes that value
unchanged to the returned list. -/
theorem c10_nonstring_name_included (u : String) (v : Json) :
    (get_public_repositories
      (fun _ => .response ⟨200, none, .ok (Json.arr [Json.obj [("name", v)]])⟩) u).1
        = .ok [v] := rfl

end RepoFetcher
